import Mathlib

/-!
Verification development for the CompuBot conversational quoting engine
(`app/services/conversation_engine.py`, `app/repositories/quote_repository.py`,
`app/services/quote_service.py`).

The engine is embedded shallowly: every handler becomes a pure function from a
`Conversation` value and the message/intent of the turn to a `TurnResult`
(updated conversation, reply text, and the trace of `Quote` records persisted
during the turn).  External collaborators (the LLM intent classifier and
product extractor, the catalog search repository, the quote builder and the
PDF renderer) are passed in as an explicit `Env` record; the two fallible
quote-service calls return `Except` so that the `try/except` of
`_handle_cotizando_state` can be modelled faithfully.  Python floats that only
ever carry money amounts are represented as integer cents; `str.lower()` and
`unicodedata` ASCII folding are modelled character-wise for the alphabet the
code actually uses.
-/

/-! ## Basic string helpers (models of Python primitives) -/

/-- Model of Python `str.lower()` for the characters appearing in the engine:
ASCII letters via `Char.toLower`, plus the Spanish accented capitals. -/
def pyLowerChar (c : Char) : Char :=
  if c == 'Á' then 'á'
  else if c == 'É' then 'é'
  else if c == 'Í' then 'í'
  else if c == 'Ó' then 'ó'
  else if c == 'Ú' then 'ú'
  else if c == 'Ñ' then 'ñ'
  else if c == 'Ü' then 'ü'
  else c.toLower

/-- Model of Python `message.lower()`. -/
def pyLower (s : String) : String := String.mk (s.data.map pyLowerChar)

/-- `isPrefixChars p l` is true when `p` is a prefix of `l`. -/
def isPrefixChars : List Char → List Char → Bool
  | [], _ => true
  | _ :: _, [] => false
  | p :: ps, c :: cs => p == c && isPrefixChars ps cs

/-- `hasSubstring pat l` is true when `pat` occurs contiguously inside `l`;
this is Python's `pat in l` on strings. -/
def hasSubstring (pat : List Char) : List Char → Bool
  | [] => pat.isEmpty
  | c :: cs => isPrefixChars pat (c :: cs) || hasSubstring pat cs

/-- Python substring containment `pat in s`. -/
def strContains (s pat : String) : Bool := hasSubstring pat.data s.data

/-- Model of `unicodedata.normalize('NFD', s).encode('ascii','ignore')` on one
character, for the Spanish alphabet: accented vowels lose their accent, `ñ`
becomes `n`, other non-ASCII characters are dropped. -/
def asciiFoldChar (c : Char) : Option Char :=
  if c == 'á' then some 'a'
  else if c == 'é' then some 'e'
  else if c == 'í' then some 'i'
  else if c == 'ó' then some 'o'
  else if c == 'ú' then some 'u'
  else if c == 'ñ' then some 'n'
  else if c == 'ü' then some 'u'
  else if c.val < 128 then some c
  else none

/-- Model of the fallback's accent-stripping normalisation. -/
def normalizeAscii (s : String) : String := String.mk (s.data.filterMap asciiFoldChar)

/-- Decimal digit character for `n < 10`. -/
def digitChar (n : Nat) : Char := Char.ofNat (48 + n)

/-- Fuel-driven decimal rendering; the fuel bounds the number of digits, so
structural recursion suffices. -/
def natToCharsFuel : Nat → Nat → List Char
  | 0, _ => []
  | fuel + 1, n =>
    if n < 10 then [digitChar n]
    else natToCharsFuel fuel (n / 10) ++ [digitChar (n % 10)]

/-- Decimal rendering of a natural number, as Python `str(n)` produces
(`n + 1` units of fuel always suffice). -/
def natToChars (n : Nat) : List Char := natToCharsFuel (n + 1) n

/-- Decimal rendering as a `String`. -/
def natToStr (n : Nat) : String := String.mk (natToChars n)

/-- Python `f"{n:03d}"`: left-pad the decimal rendering to three characters. -/
def pad3 (n : Nat) : String :=
  if n < 10 then "00" ++ natToStr n
  else if n < 100 then "0" ++ natToStr n
  else natToStr n

/-- Two-digit padding for the fractional part of a money amount. -/
def pad2 (n : Nat) : String := if n < 10 then "0" ++ natToStr n else natToStr n

/-- Render an amount of cents as Python `f"{x:.2f}"` renders the corresponding
two-decimal float. -/
def fmtCents (c : Nat) : String := natToStr (c / 100) ++ "." ++ pad2 (c % 100)

/-- Leading digits of a character list, with the rest (helper for the
fallback's `re.findall(r'\d+', message)`). -/
def takeDigits : List Char → List Char × List Char
  | [] => ([], [])
  | c :: cs =>
    if c.isDigit then
      ((takeDigits cs).1.cons c, (takeDigits cs).2)
    else ([], c :: cs)

/-- Numeric value of a digit run. -/
def digitsToNat (l : List Char) : Nat :=
  l.foldl (fun acc c => 10 * acc + (c.toNat - 48)) 0

/-- First maximal digit run of the character list, as a number. -/
def firstNumberChars : List Char → Option Nat
  | [] => none
  | c :: cs =>
    if c.isDigit then some (digitsToNat ((takeDigits (c :: cs)).1))
    else firstNumberChars cs

/-- Model of `int(re.findall(r'\d+', message)[0])` (with `none` when the
message carries no digits). -/
def firstNumber (s : String) : Option Nat := firstNumberChars s.data

/-! ## Data model -/

/-- Shape of one extracted product mention, `{name, quantity, unit}`, as the
product extractor returns it. -/
structure ProductData where
  name : String
  quantity : Nat
  unit : String
deriving DecidableEq

/-- Snapshot of one catalog entry at match time (`Product.to_dict()`); the
price is kept in integer cents. -/
structure CandidateProduct where
  id : Nat
  name : String
  price : Nat
  stock_quantity : Nat
  sku : String
deriving DecidableEq

/-- One accumulation record of `products_in_progress`:
`{requested: .., options: [..]}`. -/
structure AccumRecord where
  requested : ProductData
  options : List CandidateProduct
deriving DecidableEq

/-- Product record used by the no-LLM fallback path, `{name, quantity,
unit_price}` with the price in cents. -/
structure FallbackProduct where
  name : String
  quantity : Nat
  unit_price : Nat
deriving DecidableEq

/-- Values stored in the conversation's `context` mapping. -/
inductive CtxVal where
  | prodList : List FallbackProduct → CtxVal
  | natV : Nat → CtxVal
  | strV : String → CtxVal
  | listV : List String → CtxVal
deriving DecidableEq

/-- The `context` JSON blob: an insertion-ordered mapping with unique keys. -/
abbrev Ctx := List (String × CtxVal)

/-- Python `ctx.get(k)`. -/
def ctxGet : Ctx → String → Option CtxVal
  | [], _ => none
  | (k0, v0) :: rest, k => if k0 == k then some v0 else ctxGet rest k

/-- Python `ctx[k] = v`: replace in place when the key exists, append
otherwise. -/
def ctxSet : Ctx → String → CtxVal → Ctx
  | [], k, v => [(k, v)]
  | (k0, v0) :: rest, k, v =>
    if k0 == k then (k0, v) :: rest else (k0, v0) :: ctxSet rest k v

/-- The conversation fields the engine reads and writes each turn. -/
structure Conversation where
  current_state : String
  context : Ctx
  products_in_progress : List AccumRecord
deriving DecidableEq

/-- A persisted quote, as `create_quote_from_conversation` returns it; the
total is in cents. -/
structure Quote where
  id : Nat
  quote_number : String
  total : Nat
deriving DecidableEq

/-- External collaborators of the engine, passed explicitly: the product
extractor and catalog search (`openai_service.extract_products_from_message`,
`product_repository.search_products` with `limit=3`), the generic LLM reply,
the fallible quote builder and PDF renderer, and ambient configuration. -/
structure Env where
  extractProducts : String → List ProductData
  searchProducts : String → List CandidateProduct
  generalResponse : String → String
  createQuote : List AccumRecord → Except String Quote
  generatePdf : Quote → Except String String
  userName : String
  apiBaseUrl : String

/-- Result of one handler call: the updated conversation as persisted through
the repository, the reply string, and the trace of `Quote` records the quote
builder persisted during the call. -/
structure TurnResult where
  conv : Conversation
  reply : String
  quotesCreated : List Quote
deriving DecidableEq

/-- `_transition_to_state`: `update_state` writes only `current_state`,
leaving `context` and `products_in_progress` untouched. -/
def transition_to_state (conv : Conversation) (newState : String) : Conversation :=
  { conv with current_state := newState }

/-! ## Match/merge routine and reply rendering -/

/-- The match routine shared by `_handle_conversando_state` (search branch)
and `_handle_recopilando_state`: each mentioned product is looked up in the
catalog; hits become accumulation records carrying all returned options,
misses are collected by name.  Both output lists preserve message order. -/
def searchAndCollect (env : Env) : List ProductData → List AccumRecord × List String
  | [] => ([], [])
  | pd :: rest =>
    let results := env.searchProducts pd.name
    let tail := searchAndCollect env rest
    if results.isEmpty then (tail.1, pd.name :: tail.2)
    else (⟨pd, results⟩ :: tail.1, tail.2)

/-- `list(conversation.products_in_progress or [])` followed by
`.extend(found_products)`: a fresh list equal to the old ordered sequence with
the new records appended. -/
def mergeProducts (old found : List AccumRecord) : List AccumRecord := old ++ found

/-- Lines of `_show_found_products` for the options of one found record
(`options[:3]`, numbering from 1; a zero stock count renders no stock note,
matching Python truthiness). -/
def optionLines : Nat → List CandidateProduct → List String
  | _, [] => []
  | idx, o :: rest =>
    ("  " ++ natToStr idx ++ ". **" ++ o.name ++ "** - $" ++ fmtCents o.price
      ++ " c/u " ++ (if o.stock_quantity != 0 then "(Stock: " ++ natToStr o.stock_quantity ++ ")" else ""))
      :: optionLines (idx + 1) rest

/-- Lines of `_show_found_products` for one found record.  Records produced by
the match routine always carry at least one option; on an (unreachable) empty
record Python would raise, so no lines are modelled for it. -/
def foundProductLines (item : AccumRecord) : List String :=
  match item.options with
  | [] => []
  | [best] =>
    ["✅ Agregado: **" ++ natToStr item.requested.quantity ++ "x " ++ best.name
      ++ "** - $" ++ fmtCents best.price ++ " c/u"]
  | best :: more =>
    ("\n🔍 Para \x27" ++ item.requested.name ++ "\x27 encontré "
        ++ natToStr (best :: more).length ++ " opciones:")
      :: (optionLines 1 ((best :: more).take 3)
      ++ ["  → Agregué la opción 1: " ++ best.name])

/-- Lines of `_show_found_products` for the not-found names. -/
def notFoundLines (notFound : List String) : List String :=
  if notFound.isEmpty then []
  else "\n❌ No encontré:"
    :: (notFound.map (fun p => "  • " ++ p)
    ++ ["\n💡 **Tip**: Intenta con otros términos. Ejemplos: \x27papel bond\x27, \x27pluma bic\x27, \x27calculadora\x27"])

/-- `_show_found_products`: option/mis-match report joined by newlines. -/
def show_found_products (found : List AccumRecord) (notFound : List String) : String :=
  String.intercalate "\n"
    ((found.flatMap foundProductLines)
      ++ notFoundLines notFound
      ++ ["\n¿Quieres agregar más productos o generar la cotización?"])

/-- Numbered lines of the status-query summary in `_handle_recopilando_state`
(`enumerate(products, 1)`). -/
def statusLines : Nat → List AccumRecord → List String
  | _, [] => []
  | i, r :: rest =>
    (natToStr i ++ ". " ++ natToStr r.requested.quantity ++ "x " ++ r.requested.name)
      :: statusLines (i + 1) rest

/-- Reply of the status-query branch when the list is empty. -/
def emptyStatusReply : String :=
  "Aún no tienes productos en tu cotización. 📋\n\n¿Qué productos necesitas agregar?"

/-- Reply of the status-query branch when the list is non-empty. -/
def statusSummaryReply (products : List AccumRecord) : String :=
  "Hasta ahora tienes **" ++ natToStr products.length ++ " producto(s)** en tu cotización:\n\n"
    ++ String.intercalate "\n" (statusLines 1 products)
    ++ "\n\n¿Quieres agregar más productos o generar la cotización?"

/-- Item lines and accumulated subtotal (cents) of `_show_products_summary`;
records with no options are skipped (`continue`). -/
def summaryItems : List AccumRecord → List String × Nat
  | [] => ([], 0)
  | item :: rest =>
    let tail := summaryItems rest
    match item.options with
    | [] => tail
    | saved :: _ =>
      let quantity := item.requested.quantity
      let subtotal := quantity * saved.price
      (("• " ++ natToStr quantity ++ "x **" ++ saved.name ++ "**")
        :: ("  $" ++ fmtCents saved.price ++ " c/u = **$" ++ fmtCents subtotal ++ "**\n")
        :: tail.1,
       subtotal + tail.2)

/-- `_show_products_summary`: validation summary with estimated subtotal. -/
def show_products_summary (products : List AccumRecord) : String :=
  if products.isEmpty then "No tienes productos en tu cotización."
  else
    let items := summaryItems products
    String.intercalate "\n"
      ("Resumen de tu cotización: 📋\n"
        :: items.1
        ++ ["**Subtotal estimado: $" ++ fmtCents items.2 ++ "**",
            "\n¿Confirmas que proceda con esta cotización?"])

/-! ## Reply constants of the state handlers -/

/-- Reply of the `COTIZAR` branch of `_handle_conversando_state`. -/
def cotizarPrompt : String :=
  "Perfecto! Te ayudo a generar una cotización. 📋\n\n"
    ++ "Puedes decirme los productos que necesitas de varias formas:\n"
    ++ "• \x27Necesito 100 hojas de papel bond A4\x27\n"
    ++ "• \x27Quiero lápices, borradores y cuadernos\x27\n"
    ++ "• \x27Me das precio de calculadoras científicas\x27\n\n"
    ++ "¿Qué productos necesitas?"

/-- Reply of the search branch when the extractor yields nothing. -/
def catalogPrompt : String :=
  "Te puedo ayudar a buscar productos. 🔍\n\n"
    ++ "Tenemos una amplia variedad:\n"
    ++ "• Papel (bond, couché, cartulina)\n"
    ++ "• Útiles escolares (lápices, colores, borradores)\n"
    ++ "• Artículos de oficina (folders, calculadoras)\n"
    ++ "• Cuadernos y libretas\n\n"
    ++ "¿Qué producto específico buscas?"

/-- Reply of the add-product branch when no product could be identified. -/
def noProductsIdentifiedReply : String :=
  "No pude identificar productos específicos en tu mensaje. 🤔\n\n"
    ++ "Intenta ser más específico, por ejemplo:\n"
    ++ "• \x27" ++ "50 hojas de papel bond\x27\n"
    ++ "• \x27" ++ "2 calculadoras científicas\x27\n"
    ++ "• \x27folders manila tamaño carta\x27\n\n"
    ++ "¿Qué productos necesitas?"

/-- Reply of the finalize branch when nothing has been collected yet. -/
def nothingToFinalizeReply : String :=
  "Aún no tienes productos agregados a tu cotización. 📝\n\n¿Qué productos necesitas agregar?"

/-- Default reply of `_handle_recopilando_state`. -/
def keepCollectingReply : String :=
  "Perfecto, sigo anotando productos. ¿Qué más necesitas agregar a tu cotización?"

/-- Reply of the empty-list branch of `_handle_cotizando_state`. -/
def noProductsToQuoteReply : String :=
  "No hay productos para cotizar. ¿Qué productos necesitas?"

/-- Generic apology of the `except` branch of `_handle_cotizando_state`. -/
def genericQuoteError : String :=
  "Lo siento, ocurrió un error al generar tu cotización. ❌\n\n"
    ++ "Por favor intenta de nuevo o contacta a nuestro equipo de soporte."

/-- Success reply of `_handle_cotizando_state`. -/
def quoteSuccessReply (env : Env) (quote : Quote) (preparedCount : Nat) : String :=
  "¡Cotización generada exitosamente! 🎉\n\n"
    ++ "📋 **Número de cotización:** " ++ quote.quote_number ++ "\n"
    ++ "💰 **Total:** $" ++ fmtCents quote.total ++ " MXN\n"
    ++ "📄 **PDF:** " ++ (env.apiBaseUrl ++ "/test/quotes/" ++ natToStr quote.id ++ "/pdf") ++ "\n\n"
    ++ "Tu cotización incluye " ++ natToStr preparedCount ++ " producto(s) y está válida por 30 días.\n\n"
    ++ "Para realizar tu pedido, confirma por WhatsApp o llámanos al (55) 1234-5678.\n\n"
    ++ "¡Gracias por elegir Computel! 🙏"

/-! ## Guard predicates -/

/-- Keyword set of the status-query branch of `_handle_recopilando_state`. -/
def statusKeywords : List String :=
  ["cuantos", "cuántos", "cantidad", "llevo", "tengo", "lista", "resumen"]

/-- The status-query guard: some keyword occurs in the lowercased message. -/
def statusQueryCond (message : String) : Bool :=
  statusKeywords.any (fun w => strContains (pyLower message) w)

/-- The affirmative guard of `_handle_validando_state`. -/
def affirmCond (message intent : String) : Bool :=
  intent == "FINALIZAR_COTIZACION"
    || strContains (pyLower message) "confirmar"
    || strContains (pyLower message) "sí"
    || strContains (pyLower message) "si"

/-- The modify guard of `_handle_validando_state`. -/
def modifyCond (message : String) : Bool :=
  strContains (pyLower message) "modificar" || strContains (pyLower message) "cambiar"

/-! ## State handlers -/

/-- `_handle_conversando_state`.  The `BUSCAR_PRODUCTOS` branch first replaces
the whole `context` mapping with a fresh one holding an empty product list,
transitions to `recopilando`, and then runs the same match/merge routine as
the collecting state — appending to whatever the model field
`products_in_progress` already holds. -/
def handle_conversando_state (env : Env) (conv : Conversation) (message intent : String) : TurnResult :=
  if intent == "COTIZAR" then
    ⟨transition_to_state conv "recopilando", cotizarPrompt, []⟩
  else if intent == "BUSCAR_PRODUCTOS" then
    let conv1 := { conv with context := [("products_in_progress", CtxVal.prodList [])] }
    let conv2 := transition_to_state conv1 "recopilando"
    let mentioned := env.extractProducts message
    if mentioned.isEmpty then
      ⟨conv2, catalogPrompt, []⟩
    else
      let sr := searchAndCollect env mentioned
      let current := mergeProducts conv2.products_in_progress sr.1
      ⟨{ conv2 with products_in_progress := current }, show_found_products sr.1 sr.2, []⟩
  else
    ⟨conv, env.generalResponse message, []⟩

/-- `_handle_recopilando_state`: status-query keywords first, then the
add/search intents running the match/merge routine, then finalize, then the
default acknowledgement. -/
def handle_recopilando_state (env : Env) (conv : Conversation) (message intent : String) : TurnResult :=
  if statusQueryCond message then
    if conv.products_in_progress.length == 0 then
      ⟨conv, emptyStatusReply, []⟩
    else
      ⟨conv, statusSummaryReply conv.products_in_progress, []⟩
  else if intent == "AGREGAR_PRODUCTO" || intent == "BUSCAR_PRODUCTOS" then
    let mentioned := env.extractProducts message
    if mentioned.isEmpty then
      ⟨conv, noProductsIdentifiedReply, []⟩
    else
      let sr := searchAndCollect env mentioned
      let current := mergeProducts conv.products_in_progress sr.1
      ⟨{ conv with products_in_progress := current }, show_found_products sr.1 sr.2, []⟩
  else if intent == "FINALIZAR_COTIZACION" then
    if conv.products_in_progress.isEmpty then
      ⟨conv, nothingToFinalizeReply, []⟩
    else
      ⟨transition_to_state conv "validando", show_products_summary conv.products_in_progress, []⟩
  else
    ⟨conv, keepCollectingReply, []⟩

/-- `prepare_products_for_quote` of the quote service: keep the records that
carry at least one option, truncating `options` to the best match. -/
def prepare_products_for_quote : List AccumRecord → List AccumRecord
  | [] => []
  | r :: rest =>
    match r.options with
    | [] => prepare_products_for_quote rest
    | best :: _ => ⟨r.requested, [best]⟩ :: prepare_products_for_quote rest

/-- `_handle_cotizando_state`.  An empty product list returns to
`conversando` with an explanatory reply before the quote builder is reached;
any exception from quote creation or PDF rendering is caught and converted
into the `conversando` transition plus the generic apology; on success the
conversation is finalised, the product list cleared and the quote reference
stored in a fresh `context`. -/
def handle_cotizando_state (env : Env) (conv : Conversation) (_message _intent : String) : TurnResult :=
  let products := conv.products_in_progress
  if products.isEmpty then
    ⟨transition_to_state conv "conversando", noProductsToQuoteReply, []⟩
  else
    let prepared := prepare_products_for_quote products
    match env.createQuote prepared with
    | .error _ => ⟨transition_to_state conv "conversando", genericQuoteError, []⟩
    | .ok quote =>
      match env.generatePdf quote with
      | .error _ => ⟨transition_to_state conv "conversando", genericQuoteError, [quote]⟩
      | .ok pdfPath =>
        let conv1 := transition_to_state conv "finalizado"
        let conv2 := { conv1 with
          products_in_progress := ([] : List AccumRecord),
          context := [("products_in_progress", CtxVal.prodList []),
                      ("last_quote_id", CtxVal.natV quote.id),
                      ("last_quote_number", CtxVal.strV quote.quote_number),
                      ("last_pdf_path", CtxVal.strV pdfPath)] }
        ⟨conv2, quoteSuccessReply env quote (prepare_products_for_quote products).length, [quote]⟩

/-- `_handle_validando_state`: on finalize intent or an affirmative keyword
the conversation transitions to `cotizando` and the cotizando handler runs
inline in the same turn. -/
def handle_validando_state (env : Env) (conv : Conversation) (message intent : String) : TurnResult :=
  if affirmCond message intent then
    handle_cotizando_state env (transition_to_state conv "cotizando") message intent
  else if modifyCond message then
    ⟨transition_to_state conv "recopilando",
      "Sin problema, puedes modificar tu lista. ✏️\n\n¿Qué cambios quieres hacer?", []⟩
  else
    ⟨conv,
      "¿Confirmas que proceda con la cotización de estos productos? 🤔\n\n"
        ++ "Responde \x27sí\x27 para continuar o \x27modificar\x27 si quieres hacer cambios.", []⟩

/-- `_handle_revisando_state`: unconditional pass-through to `cotizando`. -/
def handle_revisando_state (conv : Conversation) : TurnResult :=
  ⟨transition_to_state conv "cotizando", "Generando tu cotización final... ⏳", []⟩

/-- `_handle_cancel`: back to `conversando`, empty the context product key and
the model product list. -/
def handle_cancel (conv : Conversation) : TurnResult :=
  let conv1 := transition_to_state conv "conversando"
  let conv2 := { conv1 with context := ctxSet conv1.context "products_in_progress" (CtxVal.prodList []) }
  ⟨{ conv2 with products_in_progress := ([] : List AccumRecord) },
    "Proceso cancelado. ✅\n\n¿En qué más te puedo ayudar?", []⟩

/-- `_handle_goodbye`: transition to the terminal state. -/
def handle_goodbye (conv : Conversation) : TurnResult :=
  ⟨transition_to_state conv "finalizado",
    "¡Gracias por usar nuestro servicio! 👋\n\n"
      ++ "Fue un placer ayudarte. Si necesitas algo más, no dudes en escribir.\n"
      ++ "¡Que tengas un excelente día!", []⟩

/-- `_handle_greeting`: personalised welcome, no state change. -/
def greetingReply (userName : String) : String :=
  "¡Hola " ++ userName ++ "! 👋 Soy tu asistente de cotizaciones de Computel.\n\n"
    ++ "Te puedo ayudar a:\n"
    ++ "• Generar cotizaciones de productos 📝\n"
    ++ "• Consultar precios y disponibilidad 💰\n"
    ++ "• Buscar productos específicos 🔍\n\n"
    ++ "¿En qué te puedo ayudar hoy?"

/-- `_get_help_message`: state-specific help text. -/
def help_message (current_state : String) : String :=
  let baseHelp := "Te puedo ayudar con: 🤖\n\n"
    ++ "• Generar cotizaciones\n"
    ++ "• Buscar productos y precios\n"
    ++ "• Consultar disponibilidad\n\n"
  if current_state == "recopilando" then
    baseHelp ++ "Ahora estás agregando productos. Dime qué necesitas o escribe \x27listo\x27 para continuar."
  else if current_state == "validando" then
    baseHelp ++ "Estás validando tu cotización. Confirma con \x27sí\x27 o pide modificaciones."
  else
    baseHelp ++ "¿En qué te puedo ayudar específicamente?"

/-- `_handle_message_by_state`: global interrupts (greeting, help, cancel,
goodbye) are dispatched on the classified intent before `current_state` is
inspected; then the per-state handlers; an unknown state falls back to the
generic LLM response. -/
def handle_message_by_state (env : Env) (conv : Conversation) (message intent : String) : TurnResult :=
  if intent == "SALUDO" then ⟨conv, greetingReply env.userName, []⟩
  else if intent == "AYUDA" then ⟨conv, help_message conv.current_state, []⟩
  else if intent == "CANCELAR" then handle_cancel conv
  else if intent == "DESPEDIDA" then handle_goodbye conv
  else if conv.current_state == "conversando" then handle_conversando_state env conv message intent
  else if conv.current_state == "recopilando" then handle_recopilando_state env conv message intent
  else if conv.current_state == "validando" then handle_validando_state env conv message intent
  else if conv.current_state == "revisando" then handle_revisando_state conv
  else if conv.current_state == "cotizando" then handle_cotizando_state env conv message intent
  else ⟨conv, env.generalResponse message, []⟩

/-! ## The no-LLM fallback path (`_handle_message_fallback`) -/

/-- Greeting keywords of the fallback. -/
def fallbackGreetingKw : List String := ["hola", "hello", "hi", "buenas"]

/-- Reset phrases of the fallback. -/
def resetPhrases : List String :=
  ["reiniciar", "restart", "empezar de nuevo", "borrar todo", "nueva sesion", "reset"]

/-- Product keywords that trigger the fallback's product detection. -/
def fallbackProductKw : List String :=
  ["lápiz", "lapiz", "papel", "cuaderno", "folder", "pluma", "calculadora",
   "bic", "casio", "mongol", "hojas", "bond"]

/-- Quote-intent keywords of the fallback. -/
def fallbackQuoteKw : List String := ["cotización", "cotizacion", "precio", "costo"]

/-- Finalize keywords of the fallback. -/
def fallbackFinalizeKw : List String := ["generar", "listo", "terminar", "finalizar"]

/-- Confirmation keywords of the fallback. -/
def fallbackConfirmKw : List String := ["sí", "si", "confirmar", "ok", "vale"]

/-- Help keywords of the fallback. -/
def fallbackHelpKw : List String := ["ayuda", "help", "que puedes hacer"]

/-- The context written by the fallback's reset command (`last_confidence` is
the float `1.0` in the source). -/
def resetContext : Ctx :=
  [("products_in_progress", CtxVal.prodList []),
   ("last_intent", CtxVal.strV "RESET"),
   ("last_confidence", CtxVal.natV 1),
   ("intent_history", CtxVal.listV [])]

/-- Reply of the fallback's reset command. -/
def resetReply (userName : String) : String :=
  "🔄 **Sesión reiniciada exitosamente** 🔄\n\n"
    ++ "¡Hola " ++ userName ++ "! 👋 \n\n"
    ++ "Estamos empezando desde cero. ¿En qué puedo ayudarte?\n\n"
    ++ "Puedes decir:\n"
    ++ "• \x27Quiero una cotización\x27\n"
    ++ "• \x27Necesito productos de papelería\x27\n"
    ++ "• \x27Ayuda\x27\n\n"
    ++ "💡 **Tip**: Di \x27reiniciar\x27 en cualquier momento para empezar de nuevo."

/-- Product detection of the fallback against the lowercased message: one
fixed record per product family, in source order.  The pencil family also
checks the accent-stripped message. -/
def fallbackDetectProducts (ml : String) : List FallbackProduct :=
  let nm := normalizeAscii ml
  (if ["lapiz", "lápiz"].any (fun w => strContains nm w)
      || ["lapiz", "lápiz", "mongol"].any (fun w => strContains ml w)
   then [⟨"Lápices Mongol #2", 1, 850⟩] else [])
  ++ (if ["papel", "bond", "hojas", "hoja"].any (fun w => strContains ml w)
      then [⟨"Papel Bond A4", 1, 275⟩] else [])
  ++ (if strContains ml "cuaderno" then [⟨"Cuadernos", 1, 550⟩] else [])
  ++ (if strContains ml "folder" || strContains ml "manila"
      then [⟨"Folder Manila", 1, 3500⟩] else [])
  ++ (if strContains ml "pluma" || strContains ml "bic"
      then [⟨"Plumas BIC Cristal", 1, 4500⟩] else [])
  ++ (if strContains ml "calculadora" || strContains ml "casio"
      then [⟨"Calculadora Casio FX-991", 1, 28500⟩] else [])

/-- Quantity extraction of the fallback: the first integer token of the raw
message, applied to the first detected product when within `(0, 1000]`. -/
def applyQuantity (message : String) (found : List FallbackProduct) : List FallbackProduct :=
  match firstNumber message, found with
  | some q, f :: rest =>
    if 0 < q && q ≤ 1000 then { f with quantity := q } :: rest else f :: rest
  | _, _ => found

/-- The fallback's product list, read from the context
(`conversation.context.get("products_in_progress", [])`). -/
def ctxFallbackProds (ctx : Ctx) : List FallbackProduct :=
  match ctxGet ctx "products_in_progress" with
  | some (CtxVal.prodList l) => l
  | _ => []

/-- Reply of the fallback after products were added. -/
def fallbackProductsAddedReply (found : List FallbackProduct) : String :=
  "Productos agregados: ✅\n\n"
    ++ String.intercalate "\n"
        (found.map (fun p => "• " ++ natToStr p.quantity ++ "x " ++ p.name
          ++ " - $" ++ fmtCents p.unit_price ++ " c/u"))
    ++ "\n\n¿Quieres agregar más productos o generar la cotización?"

/-- General reply at the end of the fallback chain. -/
def fallbackGeneralReply : String :=
  "Te ayudo con cotizaciones de papelería. 📝\n\n"
    ++ "Puedes decir:\n"
    ++ "• \x27Necesito una cotización\x27\n"
    ++ "• \x27Quiero lápices y papel\x27\n"
    ++ "• \x27Ayuda\x27\n\n"
    ++ "¿Qué necesitas?"

/-- Fallback summary shown when finalizing: per-product lines with subtotal,
16% IVA and total (cents arithmetic stands in for the source's floats). -/
def fallbackFinalizeReply (pip : List FallbackProduct) : String :=
  let subtotal := pip.foldl (fun acc p => acc + p.unit_price * p.quantity) 0
  let iva := subtotal * 16 / 100
  "Resumen de tu cotización: 📋\n\n"
    ++ String.intercalate "\n"
        (pip.map (fun p => "• " ++ natToStr p.quantity ++ "x " ++ p.name
          ++ " - $" ++ fmtCents p.unit_price ++ " c/u"))
    ++ "\n\n**Subtotal: $" ++ fmtCents subtotal ++ "**\n"
    ++ "**IVA (16%): $" ++ fmtCents iva ++ "**\n"
    ++ "**Total: $" ++ fmtCents (subtotal + iva) ++ "**\n\n"
    ++ "¿Confirmas que proceda con esta cotización?"

/-- `_handle_message_fallback`: the deterministic keyword chain used when the
intent classifier call throws.  Branch order matches the source: greeting,
reset, product keywords, quote keywords, finalize, confirmation, help,
general.  Branches whose body ends without returning fall through to the
general reply, as the Python control flow does. -/
def handle_message_fallback (env : Env) (conv : Conversation) (message : String) : TurnResult :=
  let ml := pyLower message
  let current_state := conv.current_state
  if fallbackGreetingKw.any (fun w => strContains ml w) then
    ⟨conv, "¡Hola " ++ env.userName
      ++ "! 👋 Soy tu asistente de cotizaciones de Computel. ¿En qué puedo ayudarte hoy?", []⟩
  else if resetPhrases.any (fun w => strContains ml w) then
    let conv1 := transition_to_state conv "conversando"
    ⟨{ conv1 with context := resetContext, products_in_progress := ([] : List AccumRecord) },
      resetReply env.userName, []⟩
  else if fallbackProductKw.any (fun w => strContains ml w) then
    if current_state == "recopilando" then
      let pip := ctxFallbackProds conv.context
      let found := applyQuantity message (fallbackDetectProducts ml)
      if found.isEmpty then
        ⟨conv, fallbackGeneralReply, []⟩
      else
        let pip2 := pip ++ found
        ⟨{ conv with context := ctxSet conv.context "products_in_progress" (CtxVal.prodList pip2) },
          fallbackProductsAddedReply found, []⟩
    else
      ⟨transition_to_state conv "recopilando",
        "Perfecto! Te ayudo a generar una cotización. 📋\n\nPor favor repite qué productos necesitas.", []⟩
  else if fallbackQuoteKw.any (fun w => strContains ml w) then
    let conv1 := if current_state != "recopilando" then transition_to_state conv "recopilando" else conv
    let conv2 :=
      if ["cotización", "cotizacion", "nueva", "otro"].any (fun w => strContains ml w) then
        { conv1 with context := ctxSet conv1.context "products_in_progress" (CtxVal.prodList []) }
      else conv1
    ⟨conv2,
      "Perfecto! Te ayudo a generar una cotización. 📋\n\n"
        ++ "Dime qué productos necesitas, por ejemplo:\n"
        ++ "• \x27Necesito 100 hojas de papel bond\x27\n"
        ++ "• \x27Quiero lápices mongol\x27\n"
        ++ "• \x27Me das precio de calculadoras casio\x27\n\n"
        ++ "¿Qué productos necesitas?", []⟩
  else if fallbackFinalizeKw.any (fun w => strContains ml w) then
    if current_state == "recopilando" then
      let pip := ctxFallbackProds conv.context
      if pip.isEmpty then
        ⟨conv, nothingToFinalizeReply, []⟩
      else
        ⟨transition_to_state conv "validando", fallbackFinalizeReply pip, []⟩
    else
      ⟨conv, fallbackGeneralReply, []⟩
  else if fallbackConfirmKw.any (fun w => strContains ml w) then
    if current_state == "validando" then
      ⟨transition_to_state conv "finalizado",
        "¡Cotización generada exitosamente! 🎉\n\n"
          ++ "📋 **Número de cotización:** Q2025-001234\n"
          ++ "💰 **Total:** $37.70 MXN\n"
          ++ "📄 **PDF generado:** ✅\n\n"
          ++ "Tu cotización está válida por 30 días.\n\n"
          ++ "Para realizar tu pedido, confirma por WhatsApp o llámanos al (55) 1234-5678.\n\n"
          ++ "¡Gracias por elegir Computel! 🙏", []⟩
    else
      ⟨conv, fallbackGeneralReply, []⟩
  else if fallbackHelpKw.any (fun w => strContains ml w) then
    ⟨conv,
      "Te puedo ayudar con: 🤖\n\n"
        ++ "• Generar cotizaciones de productos\n"
        ++ "• Consultar precios y disponibilidad\n"
        ++ "• Buscar productos específicos\n\n"
        ++ "Escribe \x27cotización\x27 para empezar o dime qué productos necesitas.", []⟩
  else
    ⟨conv, fallbackGeneralReply, []⟩

/-! ## Quote numbering (`QuoteRepository._generate_quote_number`) -/

/-- `_generate_quote_number`: `COT-` plus the current date as `YYYYMMDD`, plus
the day's sequence number rendered with `%03d`; `lastSeq` is the sequence
number of the day's latest quote, when one exists. -/
def generate_quote_number (dateStr : String) (lastSeq : Option Nat) : String :=
  let pfx := "COT-" ++ dateStr
  match lastSeq with
  | some lastN => pfx ++ "-" ++ pad3 (lastN + 1)
  | none => pfx ++ "-" ++ pad3 1

/-- Consume exactly `n` decimal digits, returning the remainder. -/
def digitsN : Nat → List Char → Option (List Char)
  | 0, cs => some cs
  | _ + 1, [] => none
  | n + 1, c :: cs => if c.isDigit then digitsN n cs else none

/-- The spec's quote-number pattern `COT-YYYYMMDD-NNN`: the literal `COT-`,
eight digits, a dash, and exactly three digits. -/
def matchesQuoteNumberShape (s : String) : Bool :=
  match s.data with
  | 'C' :: 'O' :: 'T' :: '-' :: rest =>
    match digitsN 8 rest with
    | some ('-' :: rest2) => digitsN 3 rest2 == some []
    | _ => false
  | _ => false

/-! ## Derived definitions used by the statements -/

/-- Records matched from one message: extraction followed by the catalog
match, keeping the found records. -/
def foundOf (env : Env) (m : String) : List AccumRecord :=
  (searchAndCollect env (env.extractProducts m)).1

/-- The context holds no accumulated product records: whatever list sits under
the `products_in_progress` key is empty. -/
def ctxProdsEmpty (ctx : Ctx) : Bool :=
  match ctxGet ctx "products_in_progress" with
  | some (CtxVal.prodList l) => l.isEmpty
  | _ => true

/-! ## Concrete fixtures for witnesses and counterexamples -/

/-- A catalog snapshot used by the concrete environment. -/
def testCandidate : CandidateProduct := ⟨1, "Papel Bond A4", 275, 100, "SKU-1"⟩

/-- A second catalog snapshot. -/
def lapizCandidate : CandidateProduct := ⟨5, "Lápices Mongol #2", 850, 50, "SKU-5"⟩

/-- A record already accumulated before the turn under scrutiny. -/
def oldRec : AccumRecord := ⟨⟨"borrador", 4, "piezas"⟩, [⟨9, "Borrador Blanco", 120, 30, "SKU-9"⟩]⟩

/-- The record the match routine produces for the paper mention. -/
def recPapel : AccumRecord := ⟨⟨"papel", 1, "piezas"⟩, [testCandidate]⟩

/-- The record the match routine produces for the pencil mention. -/
def recLapiz : AccumRecord := ⟨⟨"lapiz", 2, "piezas"⟩, [lapizCandidate]⟩

/-- A deterministic environment: fixed extractor and catalog answers, a quote
builder that succeeds with a quote numbered by `generate_quote_number`, and a
PDF renderer that succeeds. -/
def testEnv : Env :=
  { extractProducts := fun m =>
      if m == "quiero papel" then [⟨"papel", 1, "piezas"⟩]
      else if m == "quiero lapiz" then [⟨"lapiz", 2, "piezas"⟩]
      else if m == "quiero papel y lapiz" then [⟨"papel", 1, "piezas"⟩, ⟨"lapiz", 2, "piezas"⟩]
      else [],
    searchProducts := fun n =>
      if n == "papel" then [testCandidate]
      else if n == "lapiz" then [lapizCandidate]
      else [],
    generalResponse := fun _ => "GENERAL",
    createQuote := fun _ => .ok ⟨7, "COT-20251012-001", 116000⟩,
    generatePdf := fun _ => .ok "/srv/quotes/q7.pdf",
    userName := "Ana",
    apiBaseUrl := "http://localhost:8000" }

/-- The same environment with a quote builder that throws. -/
def failEnv : Env := { testEnv with createQuote := fun _ => .error "db error" }

/-! ## Helper lemmas -/

/-- Reading a key immediately after writing it. -/
theorem ctxGet_ctxSet (ctx : Ctx) (k : String) (v : CtxVal) :
    ctxGet (ctxSet ctx k v) k = some v := by
  induction ctx with
  | nil => simp [ctxSet, ctxGet]
  | cons p rest ih =>
    obtain ⟨k0, v0⟩ := p
    by_cases h : (k0 == k) = true
    · simp [ctxSet, ctxGet, h]
    · simp [ctxSet, ctxGet, h, ih]

/-- Writing an empty product list under the context key establishes
`ctxProdsEmpty`. -/
theorem ctxProdsEmpty_set_nil (ctx : Ctx) :
    ctxProdsEmpty (ctxSet ctx "products_in_progress" (CtxVal.prodList [])) = true := by
  simp [ctxProdsEmpty, ctxGet_ctxSet]

/-- The empty pattern occurs in every list. -/
theorem hasSubstring_nil (l : List Char) : hasSubstring [] l = true := by
  cases l <;> simp [hasSubstring, isPrefixChars]

/-- Every list is a prefix of itself extended on the right. -/
theorem isPrefixChars_append_self (p rest : List Char) :
    isPrefixChars p (p ++ rest) = true := by
  induction p with
  | nil => simp [isPrefixChars]
  | cons c cs ih => simp [isPrefixChars, ih]

/-- A pattern occurs in itself extended on the right. -/
theorem hasSubstring_self_append (pat B : List Char) :
    hasSubstring pat (pat ++ B) = true := by
  cases pat with
  | nil => simpa using hasSubstring_nil B
  | cons p ps =>
    simp only [hasSubstring, List.cons_append, Bool.or_eq_true]
    left
    simpa [isPrefixChars] using isPrefixChars_append_self ps B

/-- Occurrence is stable under extending the list on the left. -/
theorem hasSubstring_append_left (pat A l : List Char)
    (h : hasSubstring pat l = true) : hasSubstring pat (A ++ l) = true := by
  induction A with
  | nil => simpa using h
  | cons c cs ih => simp [hasSubstring, ih]

/-- Appending strings concatenates their character lists. -/
theorem str_data_append (a b : String) : (a ++ b).data = a.data ++ b.data := rfl

/-- Consuming exactly the digits of an all-digit block. -/
theorem digitsN_append (cs rest : List Char) (h : cs.all Char.isDigit = true) :
    digitsN cs.length (cs ++ rest) = some rest := by
  induction cs with
  | nil => rfl
  | cons c cs ih =>
    rw [List.all_cons, Bool.and_eq_true] at h
    simp [digitsN, h.1, ih h.2]

/-- One-digit rendering with any positive fuel. -/
theorem natToCharsFuel_lt10 (fuel m : Nat) (hm : m < 10) (hf : 1 ≤ fuel) :
    natToCharsFuel fuel m = [digitChar m] := by
  cases fuel with
  | zero => omega
  | succ f => simp [natToCharsFuel, hm]

/-- One-digit rendering. -/
theorem natToChars_lt10 (n : Nat) (h : n < 10) : natToChars n = [digitChar n] :=
  natToCharsFuel_lt10 (n + 1) n h (by omega)

/-- Two-digit rendering with enough fuel. -/
theorem natToCharsFuel_two (fuel m : Nat) (h1 : 10 ≤ m) (h2 : m < 100) (hf : 2 ≤ fuel) :
    natToCharsFuel fuel m = [digitChar (m / 10), digitChar (m % 10)] := by
  cases fuel with
  | zero => omega
  | succ f =>
    have hm : ¬ m < 10 := by omega
    simp [natToCharsFuel, hm, natToCharsFuel_lt10 f (m / 10) (by omega) (by omega)]

/-- Two-digit rendering. -/
theorem natToChars_two (n : Nat) (h1 : 10 ≤ n) (h2 : n < 100) :
    natToChars n = [digitChar (n / 10), digitChar (n % 10)] :=
  natToCharsFuel_two (n + 1) n h1 h2 (by omega)

/-- Three-digit rendering. -/
theorem natToChars_three (n : Nat) (h1 : 100 ≤ n) (h2 : n < 1000) :
    natToChars n = [digitChar (n / 100), digitChar (n / 10 % 10), digitChar (n % 10)] := by
  have hn : ¬ n < 10 := by omega
  have hdiv : n / 10 / 10 = n / 100 := by omega
  have htwo := natToCharsFuel_two n (n / 10) (by omega) (by omega) (by omega)
  simp [natToChars, natToCharsFuel, hn, htwo, hdiv]

/-- Digit characters are digits. -/
theorem isDigit_digitChar (n : Nat) (h : n < 10) : (digitChar n).isDigit = true := by
  interval_cases n <;> decide

/-- For a day sequence between 1 and 999, `%03d` renders exactly three digit
characters. -/
theorem pad3_data (m : Nat) (h1 : 1 ≤ m) (h2 : m ≤ 999) :
    ∃ a b c, (pad3 m).data = [a, b, c]
      ∧ a.isDigit = true ∧ b.isDigit = true ∧ c.isDigit = true := by
  by_cases hA : m < 10
  · refine ⟨'0', '0', digitChar m, ?_, rfl, rfl, isDigit_digitChar m hA⟩
    simp [pad3, hA, natToStr, natToChars_lt10 m hA, str_data_append]
  · by_cases hB : m < 100
    · refine ⟨'0', digitChar (m / 10), digitChar (m % 10), ?_,
        rfl, isDigit_digitChar _ (by omega), isDigit_digitChar _ (by omega)⟩
      simp [pad3, hA, hB, natToStr, natToChars_two m (by omega) hB, str_data_append]
    · refine ⟨digitChar (m / 100), digitChar (m / 10 % 10), digitChar (m % 10), ?_,
        isDigit_digitChar _ (by omega), isDigit_digitChar _ (by omega),
        isDigit_digitChar _ (by omega)⟩
      simp [pad3, hA, hB, natToStr, natToChars_three m (by omega) (by omega)]

/-- Any `COT-<8 digits>-<pad3 of a day sequence ≤ 999>` string matches the
spec's quote-number pattern. -/
theorem quote_number_shape_aux (dateStr : String) (m : Nat)
    (hlen : dateStr.data.length = 8) (hdig : dateStr.data.all Char.isDigit = true)
    (h1 : 1 ≤ m) (h2 : m ≤ 999) :
    matchesQuoteNumberShape (("COT-" ++ dateStr) ++ "-" ++ pad3 m) = true := by
  obtain ⟨a, b, c, hpad, ha, hb, hc⟩ := pad3_data m h1 h2
  have hdata : ((("COT-" ++ dateStr) ++ "-") ++ pad3 m).data
      = 'C' :: 'O' :: 'T' :: '-' :: (dateStr.data ++ ('-' :: [a, b, c])) := by
    simp [str_data_append, hpad]
  unfold matchesQuoteNumberShape
  rw [hdata]
  have h8 : digitsN 8 (dateStr.data ++ ('-' :: [a, b, c])) = some ('-' :: [a, b, c]) := by
    rw [← hlen]
    exact digitsN_append dateStr.data _ hdig
  simp only [h8]
  have h3 : digitsN 3 ([a, b, c] ++ []) = some [] :=
    digitsN_append [a, b, c] [] (by simp [ha, hb, hc])
  simpa using h3

/-- `_handle_recopilando_state` never writes `context`. -/
theorem recopilando_keeps_context (env : Env) (conv : Conversation) (m i : String) :
    (handle_recopilando_state env conv m i).conv.context = conv.context := by
  unfold handle_recopilando_state transition_to_state
  dsimp only
  repeat' split
  all_goals rfl

/-- `_handle_conversando_state` writes at most a fresh context whose product
key holds the empty list. -/
theorem conversando_ctx_empty (env : Env) (conv : Conversation) (m i : String)
    (h : ctxProdsEmpty conv.context = true) :
    ctxProdsEmpty (handle_conversando_state env conv m i).conv.context = true := by
  unfold handle_conversando_state transition_to_state
  dsimp only
  repeat' split
  all_goals first | exact h | rfl

/-- `_handle_cotizando_state` writes at most a fresh context whose product key
holds the empty list. -/
theorem cotizando_ctx_empty (env : Env) (conv : Conversation) (m i : String)
    (h : ctxProdsEmpty conv.context = true) :
    ctxProdsEmpty (handle_cotizando_state env conv m i).conv.context = true := by
  unfold handle_cotizando_state transition_to_state
  dsimp only
  repeat' split
  all_goals first | exact h | rfl

/-- `_handle_validando_state` preserves the context invariant. -/
theorem validando_ctx_empty (env : Env) (conv : Conversation) (m i : String)
    (h : ctxProdsEmpty conv.context = true) :
    ctxProdsEmpty (handle_validando_state env conv m i).conv.context = true := by
  unfold handle_validando_state
  split
  · exact cotizando_ctx_empty env _ m i h
  · split
    · exact h
    · exact h

/-- The add/search branch of `_handle_recopilando_state`: with no status
keyword, an add/search intent and a non-empty extraction, the turn appends the
matched records to the existing sequence and changes nothing else of the
conversation. -/
theorem recopilando_add_merges (env : Env) (c : Conversation) (m i : String)
    (hs : statusQueryCond m = false)
    (hi : i = "AGREGAR_PRODUCTO" ∨ i = "BUSCAR_PRODUCTOS")
    (hm : env.extractProducts m ≠ []) :
    (handle_recopilando_state env c m i).conv
      = { c with products_in_progress := mergeProducts c.products_in_progress (foundOf env m) } := by
  have hie : (env.extractProducts m).isEmpty = false := by
    cases h : env.extractProducts m with
    | nil => exact absurd h hm
    | cons a as => rfl
  rcases hi with h | h <;> subst h <;>
    simp [handle_recopilando_state, hs, hie, foundOf, mergeProducts]

/-! ## Claim theorems -/

/-- C3: with an empty `products_in_progress`, the cotizando handling never
creates a `Quote` record (the created-quote trace is empty and the result does
not depend on the quote builder at all), always transitions to `conversando`,
and returns the explanatory message rather than the error apology. -/
theorem cotizando_empty_no_quote (env env2 : Env) (conv : Conversation) (m i m2 i2 : String)
    (h : conv.products_in_progress = []) :
    handle_cotizando_state env conv m i
      = ⟨transition_to_state conv "conversando", noProductsToQuoteReply, []⟩
    ∧ handle_cotizando_state env conv m i = handle_cotizando_state env2 conv m2 i2
    ∧ noProductsToQuoteReply ≠ genericQuoteError := by
  refine ⟨?_, ?_, by decide⟩ <;> simp [handle_cotizando_state, h]

/-- C3 witness: the concrete empty conversation in `cotizando`. -/
theorem cotizando_empty_no_quote_witness :
    handle_cotizando_state testEnv ⟨"cotizando", [], []⟩ "genera la cotización" "FINALIZAR_COTIZACION"
      = ⟨⟨"conversando", [], []⟩, noProductsToQuoteReply, []⟩ :=
  (cotizando_empty_no_quote testEnv failEnv ⟨"cotizando", [], []⟩
    "genera la cotización" "FINALIZAR_COTIZACION" "x" "y" rfl).1

/-- C2: any exception raised by quote creation or PDF rendering inside the
cotizando handling is caught and converted into a transition to `conversando`
plus the generic failure message; in particular the conversation never stays
in `cotizando`.  (The handler is a total function of the environment, so no
exception propagates to the caller in this embedding.) -/
theorem cotizando_failure_recovers (env : Env) (conv : Conversation) (m i : String)
    (hne : conv.products_in_progress ≠ [])
    (hfail : (∃ e, env.createQuote (prepare_products_for_quote conv.products_in_progress)
                = .error e)
      ∨ (∃ q e, env.createQuote (prepare_products_for_quote conv.products_in_progress) = .ok q
          ∧ env.generatePdf q = .error e)) :
    (handle_cotizando_state env conv m i).conv.current_state = "conversando"
    ∧ (handle_cotizando_state env conv m i).reply = genericQuoteError
    ∧ (handle_cotizando_state env conv m i).conv.current_state ≠ "cotizando" := by
  have hie : conv.products_in_progress.isEmpty = false := by
    cases hp : conv.products_in_progress with
    | nil => exact absurd hp hne
    | cons a as => rfl
  rcases hfail with ⟨e, he⟩ | ⟨q, e, hq, hp⟩
  · refine ⟨?_, ?_, ?_⟩ <;> simp [handle_cotizando_state, transition_to_state, hie, he]
  · refine ⟨?_, ?_, ?_⟩ <;> simp [handle_cotizando_state, transition_to_state, hie, hq, hp]

/-- C2 witness: a failing quote builder on a non-empty list. -/
theorem cotizando_failure_recovers_witness :
    (handle_cotizando_state failEnv ⟨"cotizando", [], [oldRec]⟩ "sí" "FINALIZAR_COTIZACION").conv.current_state
      = "conversando" :=
  (cotizando_failure_recovers failEnv ⟨"cotizando", [], [oldRec]⟩ "sí" "FINALIZAR_COTIZACION"
    (by decide) (Or.inl ⟨"db error", rfl⟩)).1

/-- C7: the reset command, issued from any state (any context and any product
list), lands in `conversando` with an emptied product list and the freshly
reset context. -/
theorem fallback_reset_any_state (env : Env) (st : String) (ctx : Ctx) (prods : List AccumRecord) :
    handle_message_fallback env ⟨st, ctx, prods⟩ "reiniciar"
      = ⟨⟨"conversando", resetContext, []⟩, resetReply env.userName, []⟩ := rfl

/-- C8: a cancel intent from a non-terminal state transitions to
`conversando`, empties `products_in_progress`, and clears the product context
key. -/
theorem cancel_from_nonterminal (env : Env) (conv : Conversation) (m : String)
    (_h : conv.current_state ≠ "finalizado") :
    (handle_message_by_state env conv m "CANCELAR").conv.current_state = "conversando"
    ∧ (handle_message_by_state env conv m "CANCELAR").conv.products_in_progress = []
    ∧ ctxGet (handle_message_by_state env conv m "CANCELAR").conv.context "products_in_progress"
        = some (CtxVal.prodList []) := by
  refine ⟨rfl, rfl, ?_⟩
  exact ctxGet_ctxSet conv.context "products_in_progress" (CtxVal.prodList [])

/-- C8 witness: cancel from `cotizando` with accumulated products. -/
theorem cancel_from_nonterminal_witness :
    (handle_message_by_state testEnv ⟨"cotizando", [("x", CtxVal.natV 3)], [oldRec]⟩
        "ya no quiero" "CANCELAR").conv.products_in_progress = [] :=
  (cancel_from_nonterminal testEnv ⟨"cotizando", [("x", CtxVal.natV 3)], [oldRec]⟩
    "ya no quiero" (by decide)).2.1

/-- C10: the interrupt dispatch has no terminal-state guard: a cancel intent
in `finalizado` still lands in `conversando` with the products cleared. -/
theorem cancel_from_finalizado (env : Env) (ctx : Ctx) (prods : List AccumRecord) (m : String) :
    (handle_message_by_state env ⟨"finalizado", ctx, prods⟩ m "CANCELAR").conv.current_state
      = "conversando"
    ∧ (handle_message_by_state env ⟨"finalizado", ctx, prods⟩ m "CANCELAR").conv.products_in_progress
      = [] :=
  ⟨rfl, rfl⟩

/-- C9: in `recopilando`, a message containing a status-query keyword returns
the itemized summary (or the empty-list prompt), mutates nothing, and does so
for every classified intent — the keyword check precedes the intent check. -/
theorem recopilando_status_query (env : Env) (conv : Conversation) (m i : String)
    (h : statusQueryCond m = true) :
    (handle_recopilando_state env conv m i).conv = conv
    ∧ (handle_recopilando_state env conv m i).reply
        = (if conv.products_in_progress.length == 0 then emptyStatusReply
           else statusSummaryReply conv.products_in_progress)
    ∧ (handle_recopilando_state env conv m i).quotesCreated = [] := by
  unfold handle_recopilando_state
  rw [h]
  by_cases hl : (conv.products_in_progress.length == 0) = true <;> simp [hl]

/-- C9 witness: the message carries an add-product intent yet the `tengo`
keyword routes it to the summary path, adding nothing. -/
theorem recopilando_status_query_witness :
    statusQueryCond "tengo que agregar lápices" = true
    ∧ (handle_recopilando_state testEnv ⟨"recopilando", [], [oldRec]⟩
        "tengo que agregar lápices" "AGREGAR_PRODUCTO").conv = ⟨"recopilando", [], [oldRec]⟩ :=
  ⟨by decide, (recopilando_status_query testEnv ⟨"recopilando", [], [oldRec]⟩
    "tengo que agregar lápices" "AGREGAR_PRODUCTO" (by decide)).1⟩

/-- C4: the merge is the append of the new records to the old sequence, order
preserved; two single-product turns produce the same two-element extension,
in message order, as one combined turn. -/
theorem merge_append_only (env : Env) (conv : Conversation)
    (m1 m2 m3 i1 i2 i3 : String) (r1 r2 : AccumRecord)
    (hs1 : statusQueryCond m1 = false) (hs2 : statusQueryCond m2 = false)
    (hs3 : statusQueryCond m3 = false)
    (hi1 : i1 = "AGREGAR_PRODUCTO" ∨ i1 = "BUSCAR_PRODUCTOS")
    (hi2 : i2 = "AGREGAR_PRODUCTO" ∨ i2 = "BUSCAR_PRODUCTOS")
    (hi3 : i3 = "AGREGAR_PRODUCTO" ∨ i3 = "BUSCAR_PRODUCTOS")
    (hf1 : foundOf env m1 = [r1]) (hf2 : foundOf env m2 = [r2])
    (hf3 : foundOf env m3 = [r1, r2]) :
    (∀ old found, mergeProducts old found = old ++ found)
    ∧ (handle_recopilando_state env conv m1 i1).conv.products_in_progress
        = conv.products_in_progress ++ [r1]
    ∧ (handle_recopilando_state env (handle_recopilando_state env conv m1 i1).conv m2 i2).conv.products_in_progress
        = conv.products_in_progress ++ [r1, r2]
    ∧ (handle_recopilando_state env conv m3 i3).conv.products_in_progress
        = conv.products_in_progress ++ [r1, r2] := by
  have hm1 : env.extractProducts m1 ≠ [] := by
    intro hnil
    rw [foundOf, hnil] at hf1
    simp [searchAndCollect] at hf1
  have hm2 : env.extractProducts m2 ≠ [] := by
    intro hnil
    rw [foundOf, hnil] at hf2
    simp [searchAndCollect] at hf2
  have hm3 : env.extractProducts m3 ≠ [] := by
    intro hnil
    rw [foundOf, hnil] at hf3
    simp [searchAndCollect] at hf3
  have k1 := recopilando_add_merges env conv m1 i1 hs1 hi1 hm1
  have k3 := recopilando_add_merges env conv m3 i3 hs3 hi3 hm3
  have k2 := recopilando_add_merges env (handle_recopilando_state env conv m1 i1).conv m2 i2 hs2 hi2 hm2
  refine ⟨fun _ _ => rfl, ?_, ?_, ?_⟩
  · rw [k1, hf1]; rfl
  · rw [k2, k1, hf1, hf2]; simp [mergeProducts]
  · rw [k3, hf3]; rfl

/-- C4 witness: starting from an empty list, a paper turn then a pencil turn
yield `[recPapel, recLapiz]`, the same as the combined message. -/
theorem merge_append_only_witness :
    (handle_recopilando_state testEnv
      (handle_recopilando_state testEnv ⟨"recopilando", [], []⟩ "quiero papel" "AGREGAR_PRODUCTO").conv
      "quiero lapiz" "AGREGAR_PRODUCTO").conv.products_in_progress = [recPapel, recLapiz]
    ∧ (handle_recopilando_state testEnv ⟨"recopilando", [], []⟩
        "quiero papel y lapiz" "AGREGAR_PRODUCTO").conv.products_in_progress = [recPapel, recLapiz] := by
  have h := merge_append_only testEnv ⟨"recopilando", [], []⟩
    "quiero papel" "quiero lapiz" "quiero papel y lapiz"
    "AGREGAR_PRODUCTO" "AGREGAR_PRODUCTO" "AGREGAR_PRODUCTO" recPapel recLapiz
    (by decide) (by decide) (by decide)
    (Or.inl rfl) (Or.inl rfl) (Or.inl rfl)
    (by decide) (by decide) (by decide)
  exact ⟨h.2.2.1, h.2.2.2⟩

/-- C1 counterexample: from `conversando`, a search-products message with one
matched product does not reset the model field first — the record accumulated
before the turn survives, so `products_in_progress` is not just the records
matched from this message. -/
theorem conversando_search_keeps_old_products :
    (handle_conversando_state testEnv ⟨"conversando", [], [oldRec]⟩
        "quiero papel" "BUSCAR_PRODUCTOS").conv.products_in_progress = [oldRec, recPapel]
    ∧ (handle_conversando_state testEnv ⟨"conversando", [], [oldRec]⟩
        "quiero papel" "BUSCAR_PRODUCTOS").conv.products_in_progress ≠ [recPapel] := by
  exact ⟨rfl, by decide⟩

/-- C1 amended: the search branch from `conversando` transitions to
`recopilando`, replaces the `context` mapping by a fresh one whose product key
holds the empty list, and then runs the same match/merge routine as
`recopilando` — appending the newly matched records to the existing
`products_in_progress`, which is not reset. -/
theorem conversando_search_amended (env : Env) (conv : Conversation) (m : String)
    (hm : env.extractProducts m ≠ []) :
    (handle_conversando_state env conv m "BUSCAR_PRODUCTOS").conv.current_state = "recopilando"
    ∧ (handle_conversando_state env conv m "BUSCAR_PRODUCTOS").conv.context
        = [("products_in_progress", CtxVal.prodList [])]
    ∧ (handle_conversando_state env conv m "BUSCAR_PRODUCTOS").conv.products_in_progress
        = mergeProducts conv.products_in_progress (foundOf env m) := by
  have hie : (env.extractProducts m).isEmpty = false := by
    cases h : env.extractProducts m with
    | nil => exact absurd h hm
    | cons a as => rfl
  refine ⟨?_, ?_, ?_⟩ <;>
    simp [handle_conversando_state, transition_to_state, hie, foundOf, mergeProducts]

/-- C1 amended witness: the concrete turn of the counterexample. -/
theorem conversando_search_amended_witness :
    (handle_conversando_state testEnv ⟨"conversando", [], [oldRec]⟩
        "quiero papel" "BUSCAR_PRODUCTOS").conv.context
      = [("products_in_progress", CtxVal.prodList [])] :=
  (conversando_search_amended testEnv ⟨"conversando", [], [oldRec]⟩
    "quiero papel" (by decide)).2.1

/-- C5 counterexample: the no-LLM fallback accumulates its product records
under the `products_in_progress` context key — after one fallback turn in
`recopilando` the context holds a non-empty product list. -/
theorem fallback_writes_products_to_context :
    ctxGet (handle_message_fallback testEnv ⟨"recopilando", [], []⟩ "quiero 3 folder").conv.context
        "products_in_progress"
      = some (CtxVal.prodList [⟨"Folder Manila", 3, 3500⟩])
    ∧ ctxProdsEmpty (handle_message_fallback testEnv ⟨"recopilando", [], []⟩
        "quiero 3 folder").conv.context = false :=
  ⟨rfl, rfl⟩

/-- C5 amended: along the LLM-backed dispatch (`_handle_message_by_state` and
every state handler it reaches), the accumulated records live only in the
model field `products_in_progress`; any list the handlers write under the
`products_in_progress` context key is empty, so a context that holds no
product records keeps holding none.  The no-LLM fallback does not satisfy
this: it stores its accumulating product list under that context key. -/
theorem engine_context_never_duplicates (env : Env) (conv : Conversation) (m i : String)
    (h : ctxProdsEmpty conv.context = true) :
    ctxProdsEmpty (handle_message_by_state env conv m i).conv.context = true := by
  unfold handle_message_by_state
  repeat' split
  · exact h
  · exact h
  · exact ctxProdsEmpty_set_nil conv.context
  · exact h
  · exact conversando_ctx_empty env conv m i h
  · rw [recopilando_keeps_context]; exact h
  · exact validando_ctx_empty env conv m i h
  · exact h
  · exact cotizando_ctx_empty env conv m i h
  · exact h

/-- C5 amended witness: a concrete LLM-path turn that merges a product keeps
the context product key empty. -/
theorem engine_context_never_duplicates_witness :
    ctxProdsEmpty (handle_message_by_state testEnv ⟨"recopilando", [], []⟩
        "quiero papel" "AGREGAR_PRODUCTO").conv.context = true :=
  engine_context_never_duplicates testEnv ⟨"recopilando", [], []⟩
    "quiero papel" "AGREGAR_PRODUCTO" rfl

/-- The success reply of the cotizando handling contains the quote number. -/
theorem quoteSuccessReply_contains (env : Env) (q : Quote) (k : Nat) :
    strContains (quoteSuccessReply env q k) q.quote_number = true := by
  unfold quoteSuccessReply strContains
  simp only [str_data_append, List.append_assoc]
  apply hasSubstring_append_left
  apply hasSubstring_append_left
  exact hasSubstring_self_append _ _

/-- C6: from `validando`, a finalize intent or an affirmative keyword runs
the cotizando handling inline in the same turn; when the product list is
non-empty and the quote builder and PDF renderer succeed — the builder
numbering the quote with `_generate_quote_number` over an 8-digit date and a
day sequence still below 999 — the turn ends in `finalizado` and the reply
contains a quote number matching `COT-YYYYMMDD-NNN`. -/
theorem validando_affirm_finalizes (env : Env) (conv : Conversation) (m i : String)
    (q : Quote) (pdfPath dateStr : String) (lastSeq : Option Nat)
    (haff : affirmCond m i = true)
    (hne : conv.products_in_progress ≠ [])
    (hq : env.createQuote (prepare_products_for_quote conv.products_in_progress) = .ok q)
    (hpdf : env.generatePdf q = .ok pdfPath)
    (hqn : q.quote_number = generate_quote_number dateStr lastSeq)
    (hlen : dateStr.data.length = 8) (hdig : dateStr.data.all Char.isDigit = true)
    (hseq : ∀ n, lastSeq = some n → n + 1 ≤ 999) :
    handle_validando_state env conv m i
      = handle_cotizando_state env (transition_to_state conv "cotizando") m i
    ∧ (handle_validando_state env conv m i).conv.current_state = "finalizado"
    ∧ strContains (handle_validando_state env conv m i).reply q.quote_number = true
    ∧ matchesQuoteNumberShape q.quote_number = true := by
  have hie : conv.products_in_progress.isEmpty = false := by
    cases hp : conv.products_in_progress with
    | nil => exact absurd hp hne
    | cons a as => rfl
  have hinline : handle_validando_state env conv m i
      = handle_cotizando_state env (transition_to_state conv "cotizando") m i := by
    simp [handle_validando_state, haff]
  refine ⟨hinline, ?_, ?_, ?_⟩
  · rw [hinline]
    simp [handle_cotizando_state, transition_to_state, hie, hq, hpdf]
  · rw [hinline]
    have hr : (handle_cotizando_state env (transition_to_state conv "cotizando") m i).reply
        = quoteSuccessReply env q (prepare_products_for_quote conv.products_in_progress).length := by
      simp [handle_cotizando_state, transition_to_state, hie, hq, hpdf]
    rw [hr]
    exact quoteSuccessReply_contains env q _
  · rw [hqn]
    cases lastSeq with
    | none =>
      simpa [generate_quote_number] using
        quote_number_shape_aux dateStr 1 hlen hdig (by omega) (by omega)
    | some n =>
      have hb := hseq n rfl
      simpa [generate_quote_number] using
        quote_number_shape_aux dateStr (n + 1) hlen hdig (by omega) hb

/-- C6 witness: the concrete affirmative turn from `validando`. -/
theorem validando_affirm_finalizes_witness :
    (handle_validando_state testEnv ⟨"validando", [], [oldRec]⟩ "sí" "UNKNOWN").conv.current_state
      = "finalizado"
    ∧ matchesQuoteNumberShape "COT-20251012-001" = true := by
  have h := validando_affirm_finalizes testEnv ⟨"validando", [], [oldRec]⟩ "sí" "UNKNOWN"
    ⟨7, "COT-20251012-001", 116000⟩ "/srv/quotes/q7.pdf" "20251012" none
    (by decide) (by decide) rfl rfl (by decide) rfl (by decide) (fun n h => nomatch h)
  exact ⟨h.2.1, h.2.2.2⟩
